import Mathlib

/-!
Verification of the per-request isolation core of the `huluvu21/mcp-server`
repository (TypeScript), shallowly embedded in Lean 4.

JavaScript strings are modelled as `List Char`; a header that may be absent
(`undefined` in JS) is `Option (List Char)`.  JS truthiness of a
`string | undefined` value (`!x` is true for `undefined` and for `""`) is
made explicit in `jsFalsy`.

Source files embedded:
  - `src/middleware/auth.ts`         (`authMiddleware`)
  - `src/context/requestContext.ts`  (`getRequestContext`, `runWithContext`)
  - the client-factory module        (`createMapiClient`)
-/

/-- A JavaScript string, modelled as its list of characters. -/
abbrev JStr := List Char

/-- JS truthiness test for a `string | undefined` value: `!x` is `true`
exactly when the value is `undefined` or the empty string. -/
def jsFalsy : Option JStr → Bool
  | none => true
  | some s => s.isEmpty

/-- The nullish-coalescing operator `a ?? b` on `string | undefined` values:
yields `a` unless `a` is `undefined` (the empty string is kept). -/
def jsNullish (a b : Option JStr) : Option JStr :=
  match a with
  | some x => some x
  | none => b

/-- `interface RequestContext` from `src/context/requestContext.ts`. -/
structure RequestContext where
  apiKey : JStr
  environmentId : JStr
deriving DecidableEq, Repr

/-- The mutable fields of `AuthRequest` from `src/middleware/auth.ts`:
the two inbound headers read by the middleware, and the two optional
fields the middleware may attach (`req.apiKey`, `req.environmentId`). -/
structure AuthRequest where
  authorization : Option JStr
  xEnvironmentId : Option JStr
  apiKey : Option JStr := none
  environmentId : Option JStr := none
deriving DecidableEq, Repr

/-- How the middleware terminates: either a structured JSON-RPC rejection
(HTTP status, error code, error message, and the fact that `id` is `null`),
or passing control to the next handler (`next()`). -/
inductive Outcome where
  | rejected (status : Nat) (code : Int) (message : JStr) (idIsNull : Bool)
  | next
deriving DecidableEq, Repr

/-- `authMiddleware` from `src/middleware/auth.ts`, returned as the final
state of the request record together with the outcome.  Mirrors the source:

1. `!authHeader || !authHeader.startsWith("Bearer ")` → 401 / -32001
   "Unauthorized: Bearer token required";
2. `token = authHeader.substring(7)`; `!token` → 401 / -32001
   "Unauthorized: Invalid Bearer token";
3. `req.apiKey = token` is assigned (before the namespace check);
4. `!environmentId` (header absent or empty) → 400 / -32602
   "Bad Request: X-Environment-ID header required";
5. `req.environmentId = environmentId; next()`. -/
def authMiddleware (req : AuthRequest) : AuthRequest × Outcome :=
  let authHeader := req.authorization
  if jsFalsy authHeader ∨ ¬ (List.isPrefixOf "Bearer ".toList (authHeader.getD [])) then
    (req, .rejected 401 (-32001) "Unauthorized: Bearer token required".toList true)
  else
    let token := (authHeader.getD []).drop 7
    if token.isEmpty then
      (req, .rejected 401 (-32001) "Unauthorized: Invalid Bearer token".toList true)
    else
      let req1 := { req with apiKey := some token }
      let environmentId := req.xEnvironmentId
      if jsFalsy environmentId then
        (req1, .rejected 400 (-32602) "Bad Request: X-Environment-ID header required".toList true)
      else
        ({ req1 with environmentId := environmentId }, .next)

example :
    authMiddleware { authorization := some "Token abc".toList,
                     xEnvironmentId := some "env".toList } =
      ({ authorization := some "Token abc".toList, xEnvironmentId := some "env".toList },
       .rejected 401 (-32001) "Unauthorized: Bearer token required".toList true) := by
  decide

example :
    authMiddleware { authorization := some "Bearer ".toList,
                     xEnvironmentId := some "env".toList } =
      ({ authorization := some "Bearer ".toList, xEnvironmentId := some "env".toList },
       .rejected 401 (-32001) "Unauthorized: Invalid Bearer token".toList true) := by
  decide

example :
    authMiddleware { authorization := some "Bearer tok".toList,
                     xEnvironmentId := some "env".toList } =
      ({ authorization := some "Bearer tok".toList, xEnvironmentId := some "env".toList,
         apiKey := some "tok".toList, environmentId := some "env".toList },
       .next) := by
  decide

/-!
## Context carrier (`src/context/requestContext.ts`)

The carrier delegates to Node's `AsyncLocalStorage`.  Its store is modelled
explicitly: `Option RequestContext` is the store visible to the code that is
currently executing (`getStore()` returns it).
-/

/-- `getRequestContext` from `src/context/requestContext.ts`: reads the
current store; if no context is bound it throws
`"Request context not available - authorization required"`. -/
def getRequestContext (store : Option RequestContext) : Except JStr RequestContext :=
  match store with
  | none => .error "Request context not available - authorization required".toList
  | some context => .ok context

/-- `runWithContext` from `src/context/requestContext.ts`:
`requestContextStorage.run(context, fn)` executes `fn` with the store bound
to `context` for the whole dynamic extent of `fn`, whatever store the caller
had, and returns `fn`'s result unchanged. -/
def runWithContext {α : Type} (context : RequestContext)
    (fn : Option RequestContext → α) : Option RequestContext → α :=
  fun _callerStore => fn (some context)

/-!
## The `AsyncLocalStorage` interleaving model

`AsyncLocalStorage` (Node `async_hooks`) works by snapshotting the store when
an asynchronous continuation is created inside `run`, and restoring that
snapshot whenever the continuation is resumed; when the continuation yields,
the scheduler's previous store is restored.  Two concurrently live bound
extents are modelled as two tasks, each holding the snapshot captured by the
`runWithContext` call that created it; a schedule decides whose pending step
runs at each point.  Each step performs one `getRequestContext` lookup
against the store that is current while that step runs.
-/

/-- Resuming one asynchronous step of a task whose creating extent captured
`snapshot`: the scheduler restores the snapshot, the step performs its lookup
against the now-current store, and on yield the scheduler's store is
restored.  Returns the lookup's result and the store after the step. -/
def resumeStep (snapshot : Option RequestContext) (schedStore : Option RequestContext) :
    Except JStr RequestContext × Option RequestContext :=
  let current := snapshot
  (getRequestContext current, schedStore)

/-- Runs the steps of two bound extents `A` and `B` under an interleaving
`schedule` (`true` = next pending step of `A`, `false` = of `B`), starting
from scheduler store `store`.  Returns the list of lookup results observed
causally inside `A` and the list observed causally inside `B`. -/
def interleaveRun (a b : RequestContext) : List Bool → Option RequestContext →
    List (Except JStr RequestContext) × List (Except JStr RequestContext)
  | [], _ => ([], [])
  | true :: rest, store =>
      let (r, store') := resumeStep (some a) store
      let (la, lb) := interleaveRun a b rest store'
      (r :: la, lb)
  | false :: rest, store =>
      let (r, store') := resumeStep (some b) store
      let (la, lb) := interleaveRun a b rest store'
      (la, r :: lb)

/-!
## Client factory (`createMapiClient`)
-/

/-- The two process-wide fallback configuration variables, as read from
`process.env` at the moment of an access. -/
structure Env where
  KONTENT_API_KEY : Option JStr
  KONTENT_ENVIRONMENT_ID : Option JStr
deriving DecidableEq, Repr

/-- `const sourceTrackingHeaderName = "X-KC-SOURCE"` from the factory
module. -/
def sourceTrackingHeaderName : JStr := "X-KC-SOURCE".toList

/-- The downstream management client, reduced to the identity it is bound
to; its construction (`createManagementClient`) is an external collaborator
outside the isolation core. -/
structure ManagementClient where
  apiKey : JStr
  environmentId : JStr
deriving DecidableEq, Repr

/-- `createMapiClient(environmentId?, apiKey?)` from the client-factory
module.  Mirrors the source: `getRequestContext()` is attempted; on success
`finalApiKey = apiKey ?? context.apiKey` and likewise for the environment id;
on the thrown `NoActiveContext` error the `catch` branch instead reads
`apiKey ?? process.env.KONTENT_API_KEY` and
`environmentId ?? process.env.KONTENT_ENVIRONMENT_ID`.  Then
`if (!finalApiKey)` throws
`"API key not provided (neither in context nor environment)"`, then
`if (!finalEnvironmentId)` throws
`"Environment ID not provided (neither in context nor environment)"`,
else the client is constructed from the two resolved values.  The ambient
store and the environment at this invocation are explicit arguments. -/
def createMapiClient (environmentId apiKey : Option JStr)
    (store : Option RequestContext) (env : Env) : Except JStr ManagementClient :=
  let resolved :=
    match getRequestContext store with
    | .ok context =>
        (jsNullish apiKey (some context.apiKey),
         jsNullish environmentId (some context.environmentId))
    | .error _ =>
        (jsNullish apiKey env.KONTENT_API_KEY,
         jsNullish environmentId env.KONTENT_ENVIRONMENT_ID)
  let finalApiKey := resolved.1
  let finalEnvironmentId := resolved.2
  if jsFalsy finalApiKey then
    .error "API key not provided (neither in context nor environment)".toList
  else if jsFalsy finalEnvironmentId then
    .error "Environment ID not provided (neither in context nor environment)".toList
  else
    .ok { apiKey := finalApiKey.getD [], environmentId := finalEnvironmentId.getD [] }

example :
    createMapiClient none none (some ⟨"x".toList, "y".toList⟩) ⟨none, none⟩ =
      .ok ⟨"x".toList, "y".toList⟩ := by rfl

example :
    createMapiClient none none none ⟨some "k".toList, some "n".toList⟩ =
      .ok ⟨"k".toList, "n".toList⟩ := by rfl

example :
    createMapiClient none none none ⟨none, none⟩ =
      .error "API key not provided (neither in context nor environment)".toList := by
  rfl

/-!
## Theorems
-/

/-- C8: `getRequestContext` called outside the dynamic extent of any
`runWithContext` invocation fails with the NoActiveContext error (the thrown
message `"Request context not available - authorization required"`), and
inside a `runWithContext identity fn` extent the lookup returns exactly
`identity`, whatever store the caller had. -/
theorem getRequestContext_extent_spec :
    getRequestContext none =
      .error "Request context not available - authorization required".toList ∧
    (∀ (identity : RequestContext) (callerStore : Option RequestContext),
       runWithContext identity getRequestContext callerStore = .ok identity) :=
  ⟨rfl, fun _ _ => rfl⟩

/-- C2: for two concurrently live bound extents `A` and `B` with identities
`a` and `b`, under every interleaving `schedule` of their asynchronous steps
and from any ambient scheduler store, every lookup performed causally inside
`A` returns `a` and every lookup causally inside `B` returns `b`: the result
lists are exactly `ok a` / `ok b` repeated, never a stale or foreign
identity and never a NoActiveContext failure. -/
theorem interleaveRun_isolation (a b : RequestContext) (schedule : List Bool)
    (store : Option RequestContext) :
    interleaveRun a b schedule store =
      (List.replicate (schedule.count true) (.ok a),
       List.replicate (schedule.count false) (.ok b)) := by
  induction schedule generalizing store with
  | nil => rfl
  | cons s rest ih =>
    cases s <;>
      simp [interleaveRun, resumeStep, getRequestContext, ih, List.count_cons,
        List.replicate_succ]

theorem bearerMarker_toList :
    "Bearer ".toList = ['B', 'e', 'a', 'r', 'e', 'r', ' '] := rfl

theorem bearer_isPrefixOf_append (rest : JStr) :
    List.isPrefixOf "Bearer ".toList ("Bearer ".toList ++ rest) = true := by
  rw [bearerMarker_toList]
  simp [List.isPrefixOf]

theorem bearer_drop_append (rest : JStr) :
    ("Bearer ".toList ++ rest).drop 7 = rest := by
  rw [bearerMarker_toList]
  rfl

/-- C3: in multi-tenant mode the middleware rejects, without invoking the
next handler, exactly with these envelopes: Authorization absent or not
prefixed with `"Bearer "` → 401, code -32001, message
"Unauthorized: Bearer token required"; Authorization exactly `"Bearer "`
(prefix present, empty remainder) → 401, code -32001, message
"Unauthorized: Invalid Bearer token"; valid Authorization but
X-Environment-ID absent or empty → 400, code -32602, message
"Bad Request: X-Environment-ID header required"; `id` is null in all
three envelopes. -/
theorem authMiddleware_rejection_envelopes :
    (∀ req : AuthRequest,
       (req.authorization = none ∨
        ∃ h, req.authorization = some h ∧
          ¬ List.isPrefixOf "Bearer ".toList h = true) →
       (authMiddleware req).2 =
         .rejected 401 (-32001) "Unauthorized: Bearer token required".toList true) ∧
    (∀ req : AuthRequest, req.authorization = some "Bearer ".toList →
       (authMiddleware req).2 =
         .rejected 401 (-32001) "Unauthorized: Invalid Bearer token".toList true) ∧
    (∀ (req : AuthRequest) (rest : JStr),
       req.authorization = some ("Bearer ".toList ++ rest) → rest ≠ [] →
       (req.xEnvironmentId = none ∨ req.xEnvironmentId = some []) →
       (authMiddleware req).2 =
         .rejected 400 (-32602) "Bad Request: X-Environment-ID header required".toList true) := by
  refine ⟨?_, ?_, ?_⟩
  · intro req hcond
    rcases hcond with h | ⟨h, hh, hnp⟩
    · simp [authMiddleware, h, jsFalsy]
    · have hnp' : ¬ "Bearer ".toList <+: h := by
        simpa [List.isPrefixOf_iff_prefix] using hnp
      rw [bearerMarker_toList] at hnp'
      simp [authMiddleware, hh, jsFalsy, hnp']
  · intro req hh
    simp [authMiddleware, hh, jsFalsy, List.isPrefixOf, bearerMarker_toList]
  · intro req rest hh hne henv
    have hpre := bearer_isPrefixOf_append rest
    have hdrop := bearer_drop_append rest
    rcases henv with he | he <;>
      simp [authMiddleware, hh, he, jsFalsy, hpre, hdrop, hne]

/-- Witness for C3: the three rejection envelopes at the concrete requests
`Authorization: Token abc`, `Authorization: Bearer ` (empty remainder), and
`Authorization: Bearer tok` with no X-Environment-ID header. -/
theorem authMiddleware_rejection_envelopes_witness :
    (authMiddleware { authorization := some "Token abc".toList,
                      xEnvironmentId := some "env".toList }).2 =
        .rejected 401 (-32001) "Unauthorized: Bearer token required".toList true ∧
    (authMiddleware { authorization := some "Bearer ".toList,
                      xEnvironmentId := some "env".toList }).2 =
        .rejected 401 (-32001) "Unauthorized: Invalid Bearer token".toList true ∧
    (authMiddleware { authorization := some "Bearer tok".toList,
                      xEnvironmentId := none }).2 =
        .rejected 400 (-32602) "Bad Request: X-Environment-ID header required".toList true :=
  ⟨authMiddleware_rejection_envelopes.1 _ (Or.inr ⟨_, rfl, by decide⟩),
   authMiddleware_rejection_envelopes.2.1 _ rfl,
   authMiddleware_rejection_envelopes.2.2 _ "tok".toList (by decide) (by decide) (Or.inl rfl)⟩

/-- C4 counterexample: a request with a valid Authorization header
(`Bearer tok`) but a missing X-Environment-ID header is rejected with
-32602, yet the middleware has already attached the credential: the request
record's `apiKey` field is `some "tok"`, not unset as the claim states. -/
theorem authMiddleware_partial_identity_cex :
    (authMiddleware { authorization := some "Bearer tok".toList,
                      xEnvironmentId := none }).1.apiKey = some "tok".toList ∧
    (authMiddleware { authorization := some "Bearer tok".toList,
                      xEnvironmentId := none }).2 =
      .rejected 400 (-32602) "Bad Request: X-Environment-ID header required".toList true := by
  decide

/-- C4 amended: on the two credential-failure rejections (code -32001) the
request record is left untouched (no identity field attached); on the
missing-namespace rejection (code -32602) the credential field has already
been attached (set to the extracted token) while the namespace field is
still unset. -/
theorem authMiddleware_rejected_fields (req : AuthRequest)
    (hk : req.apiKey = none) (he : req.environmentId = none) :
    (∀ (st : Nat) (m : JStr) (i : Bool),
       (authMiddleware req).2 = .rejected st (-32001) m i → (authMiddleware req).1 = req) ∧
    (∀ (st : Nat) (m : JStr) (i : Bool),
       (authMiddleware req).2 = .rejected st (-32602) m i →
         (authMiddleware req).1.apiKey = some ((req.authorization.getD []).drop 7) ∧
         (authMiddleware req).1.environmentId = none) := by
  simp only [authMiddleware]
  split_ifs with h1 h2 h3 <;> constructor <;> intro st m i hout <;> simp_all

/-- Witness for C4's amended statement: at the request
`Authorization: Bearer tok` without X-Environment-ID, the -32602 rejection
leaves `apiKey = some "tok"` and `environmentId` unset. -/
theorem authMiddleware_rejected_fields_witness :
    (authMiddleware { authorization := some "Bearer tok".toList,
                      xEnvironmentId := none }).1.apiKey =
        some (((some "Bearer tok".toList).getD []).drop 7) ∧
    (authMiddleware { authorization := some "Bearer tok".toList,
                      xEnvironmentId := none }).1.environmentId = none :=
  (authMiddleware_rejected_fields
      { authorization := some "Bearer tok".toList, xEnvironmentId := none }
      rfl rfl).2 400
    "Bad Request: X-Environment-ID header required".toList true (by decide)

/-- C5: for every pair of non-empty strings `(cred, ns)`, the request with
headers `Authorization: Bearer <cred>` and `X-Environment-ID: <ns>` passes
the middleware and attaches exactly `cred` and `ns`, unmodified. -/
theorem authMiddleware_valid_pair (cred ns : JStr) (hc : cred ≠ []) (hn : ns ≠ []) :
    authMiddleware { authorization := some ("Bearer ".toList ++ cred),
                     xEnvironmentId := some ns } =
      ({ authorization := some ("Bearer ".toList ++ cred), xEnvironmentId := some ns,
         apiKey := some cred, environmentId := some ns }, .next) := by
  have hdrop := bearer_drop_append cred
  have hpre : "Bearer ".toList <+: "Bearer ".toList ++ cred := List.prefix_append _ _
  simp [authMiddleware, jsFalsy, hdrop, hpre, hc, hn, bearerMarker_toList] at *

/-- Witness for C5 at `(cred, ns) = ("tok", "env")`. -/
theorem authMiddleware_valid_pair_witness :
    authMiddleware { authorization := some ("Bearer ".toList ++ "tok".toList),
                     xEnvironmentId := some "env".toList } =
      ({ authorization := some ("Bearer ".toList ++ "tok".toList),
         xEnvironmentId := some "env".toList,
         apiKey := some "tok".toList, environmentId := some "env".toList }, .next) :=
  authMiddleware_valid_pair "tok".toList "env".toList (by decide) (by decide)

/-- C6 counterexample: the middleware does not trim.  For the header
`Authorization: Bearer   x  ` the attached credential is `"  x  "`, not
`"x"`; and a remainder consisting only of whitespace (`Bearer` followed by
four spaces, i.e. remainder `"   "`) is truthy, so the request passes
instead of being classified EmptyCredential. -/
theorem authMiddleware_no_trim_cex :
    (authMiddleware { authorization := some "Bearer   x  ".toList,
                      xEnvironmentId := some "y".toList }).1.apiKey =
        some "  x  ".toList ∧
    some "  x  ".toList ≠ some "x".toList ∧
    (authMiddleware { authorization := some "Bearer    ".toList,
                      xEnvironmentId := some "y".toList }).2 = .next := by
  decide

/-- C6 amended: the credential attached equals the substring after the
`"Bearer "` marker unmodified — no whitespace trimming — and only an exactly
empty remainder is classified EmptyCredential; a whitespace-only remainder
is accepted as the credential. -/
theorem authMiddleware_no_trim (rest e : JStr) (hr : rest ≠ []) (he : e ≠ []) :
    (authMiddleware { authorization := some ("Bearer ".toList ++ rest),
                      xEnvironmentId := some e }).1.apiKey = some rest ∧
    (authMiddleware { authorization := some "Bearer ".toList,
                      xEnvironmentId := some e }).2 =
      .rejected 401 (-32001) "Unauthorized: Invalid Bearer token".toList true := by
  have hdrop := bearer_drop_append rest
  have hpre : "Bearer ".toList <+: "Bearer ".toList ++ rest := List.prefix_append _ _
  constructor
  · simp [authMiddleware, jsFalsy, hdrop, hpre, hr, he, bearerMarker_toList] at *
  · simp [authMiddleware, jsFalsy, bearerMarker_toList, List.isPrefixOf]

/-- Witness for C6's amended statement at the whitespace remainder
`"  x  "` with namespace `"y"`: the attached credential keeps its
surrounding spaces. -/
theorem authMiddleware_no_trim_witness :
    (authMiddleware { authorization := some ("Bearer ".toList ++ "  x  ".toList),
                      xEnvironmentId := some "y".toList }).1.apiKey =
        some "  x  ".toList ∧
    (authMiddleware { authorization := some "Bearer ".toList,
                      xEnvironmentId := some "y".toList }).2 =
      .rejected 401 (-32001) "Unauthorized: Invalid Bearer token".toList true :=
  authMiddleware_no_trim "  x  ".toList "y".toList (by decide) (by decide)

/-- C1: the factory invoked with no explicit arguments: inside a bound
context it uses exactly the context's pair; with no bound context but both
fallback configuration variables set (to non-empty values, as the spec's
"never empty" invariant requires) it uses exactly that pair; with no bound
context and both fallback variables absent it fails, and the error reported
is the credential one ("API key not provided"), deterministically. -/
theorem createMapiClient_noArgs_spec :
    (∀ (ctx : RequestContext) (env : Env),
       ctx.apiKey ≠ [] → ctx.environmentId ≠ [] →
       createMapiClient none none (some ctx) env = .ok ⟨ctx.apiKey, ctx.environmentId⟩) ∧
    (∀ (k n : JStr), k ≠ [] → n ≠ [] →
       createMapiClient none none none ⟨some k, some n⟩ = .ok ⟨k, n⟩) ∧
    (∀ env : Env, env.KONTENT_API_KEY = none → env.KONTENT_ENVIRONMENT_ID = none →
       createMapiClient none none none env =
         .error "API key not provided (neither in context nor environment)".toList) := by
  refine ⟨?_, ?_, ?_⟩
  · intro ctx env hk hn
    cases ctx with
    | mk k n =>
      match k, hk, n, hn with
      | _ :: _, _, _ :: _, _ => rfl
  · intro k n hk hn
    match k, hk, n, hn with
    | _ :: _, _, _ :: _, _ => rfl
  · intro env h1 h2
    cases env
    subst h1; subst h2
    rfl

/-- Witness for C1 at the bound context `("x","y")`, the fallback pair
`("k","n")`, and the empty environment. -/
theorem createMapiClient_noArgs_spec_witness :
    createMapiClient none none (some ⟨"x".toList, "y".toList⟩) ⟨none, none⟩ =
        .ok ⟨"x".toList, "y".toList⟩ ∧
    createMapiClient none none none ⟨some "k".toList, some "n".toList⟩ =
        .ok ⟨"k".toList, "n".toList⟩ ∧
    createMapiClient none none none ⟨none, none⟩ =
        .error "API key not provided (neither in context nor environment)".toList :=
  ⟨createMapiClient_noArgs_spec.1 ⟨"x".toList, "y".toList⟩ ⟨none, none⟩
      (by decide) (by decide),
   createMapiClient_noArgs_spec.2.1 "k".toList "n".toList (by decide) (by decide),
   createMapiClient_noArgs_spec.2.2 ⟨none, none⟩ rfl rfl⟩

theorem createMapiClient_fallback_eval (k n : JStr) (hk : k ≠ []) (hn : n ≠ []) :
    createMapiClient none none none ⟨some k, some n⟩ = .ok ⟨k, n⟩ := by
  match k, hk, n, hn with
  | _ :: _, _, _ :: _, _ => rfl

/-- C7: an explicitly supplied non-null override takes precedence over both
the bound-context value and the fallback configuration value, independently
per field; when exactly one override is supplied, only the missing field is
filled from the active context, or from the fallback configuration when no
context is active. -/
theorem createMapiClient_override_precedence :
    (∀ (a e : JStr) (store : Option RequestContext) (env : Env), a ≠ [] → e ≠ [] →
       createMapiClient (some e) (some a) store env = .ok ⟨a, e⟩) ∧
    (∀ (a : JStr) (ctx : RequestContext) (env : Env), a ≠ [] → ctx.environmentId ≠ [] →
       createMapiClient none (some a) (some ctx) env = .ok ⟨a, ctx.environmentId⟩) ∧
    (∀ (e : JStr) (ctx : RequestContext) (env : Env), e ≠ [] → ctx.apiKey ≠ [] →
       createMapiClient (some e) none (some ctx) env = .ok ⟨ctx.apiKey, e⟩) ∧
    (∀ (a n : JStr) (kk : Option JStr), a ≠ [] → n ≠ [] →
       createMapiClient none (some a) none ⟨kk, some n⟩ = .ok ⟨a, n⟩) ∧
    (∀ (e k : JStr) (nn : Option JStr), e ≠ [] → k ≠ [] →
       createMapiClient (some e) none none ⟨some k, nn⟩ = .ok ⟨k, e⟩) := by
  refine ⟨?_, ?_, ?_, ?_, ?_⟩
  · intro a e store env ha he
    match a, ha, e, he, store with
    | _ :: _, _, _ :: _, _, some _ => rfl
    | _ :: _, _, _ :: _, _, none => rfl
  · intro a ctx env ha hn
    cases ctx with
    | mk k n =>
      match a, ha, n, hn with
      | _ :: _, _, _ :: _, _ => rfl
  · intro e ctx env he hk
    cases ctx with
    | mk k n =>
      match e, he, k, hk with
      | _ :: _, _, _ :: _, _ => rfl
  · intro a n kk ha hn
    match a, ha, n, hn with
    | _ :: _, _, _ :: _, _ => rfl
  · intro e k nn he hk
    match e, he, k, hk with
    | _ :: _, _, _ :: _, _ => rfl

/-- Witness for C7: both overrides beat a live context and a set
environment; a single override fills the other field from the context when
one is live, and from the fallback configuration when none is. -/
theorem createMapiClient_override_precedence_witness :
    createMapiClient (some "e".toList) (some "a".toList)
        (some ⟨"x".toList, "y".toList⟩) ⟨some "k".toList, some "n".toList⟩ =
      .ok ⟨"a".toList, "e".toList⟩ ∧
    createMapiClient none (some "a".toList) (some ⟨"x".toList, "y".toList⟩)
        ⟨some "k".toList, some "n".toList⟩ = .ok ⟨"a".toList, "y".toList⟩ ∧
    createMapiClient (some "e".toList) none (some ⟨"x".toList, "y".toList⟩)
        ⟨some "k".toList, some "n".toList⟩ = .ok ⟨"x".toList, "e".toList⟩ ∧
    createMapiClient none (some "a".toList) none ⟨some "k".toList, some "n".toList⟩ =
      .ok ⟨"a".toList, "n".toList⟩ ∧
    createMapiClient (some "e".toList) none none ⟨some "k".toList, some "n".toList⟩ =
      .ok ⟨"k".toList, "e".toList⟩ :=
  ⟨createMapiClient_override_precedence.1 "a".toList "e".toList
      (some ⟨"x".toList, "y".toList⟩) ⟨some "k".toList, some "n".toList⟩
      (by decide) (by decide),
   createMapiClient_override_precedence.2.1 "a".toList ⟨"x".toList, "y".toList⟩
      ⟨some "k".toList, some "n".toList⟩ (by decide) (by decide),
   createMapiClient_override_precedence.2.2.1 "e".toList ⟨"x".toList, "y".toList⟩
      ⟨some "k".toList, some "n".toList⟩ (by decide) (by decide),
   createMapiClient_override_precedence.2.2.2.1 "a".toList "n".toList
      (some "k".toList) (by decide) (by decide),
   createMapiClient_override_precedence.2.2.2.2 "e".toList "k".toList
      (some "n".toList) (by decide) (by decide)⟩

/-- C9 counterexample: the factory reads `process.env` on every invocation,
so two no-context invocations between which the environment variables were
changed use different fallback values — refuting "read once, identical
thereafter". -/
theorem createMapiClient_env_reread_cex :
    createMapiClient none none none ⟨some "k1".toList, some "n1".toList⟩ =
        .ok ⟨"k1".toList, "n1".toList⟩ ∧
    createMapiClient none none none ⟨some "k2".toList, some "n2".toList⟩ =
        .ok ⟨"k2".toList, "n2".toList⟩ ∧
    ManagementClient.mk "k1".toList "n1".toList ≠
      ManagementClient.mk "k2".toList "n2".toList :=
  ⟨rfl, rfl, by decide⟩

/-- C9 amended: the fallback configuration is re-read from the process
environment at each factory invocation; two no-context invocations that
observe different (valid) environment values construct different clients —
a change of the environment variables between the calls is observed. -/
theorem createMapiClient_reads_env_each_call (k₁ n₁ k₂ n₂ : JStr)
    (h₁ : k₁ ≠ []) (hn₁ : n₁ ≠ []) (h₂ : k₂ ≠ []) (hn₂ : n₂ ≠ []) (hne : k₁ ≠ k₂) :
    createMapiClient none none none ⟨some k₁, some n₁⟩ ≠
      createMapiClient none none none ⟨some k₂, some n₂⟩ := by
  rw [createMapiClient_fallback_eval k₁ n₁ h₁ hn₁,
    createMapiClient_fallback_eval k₂ n₂ h₂ hn₂]
  simp [hne]

/-- Witness for C9's amended statement at the environments `("k1","n1")`
and `("k2","n2")`. -/
theorem createMapiClient_reads_env_each_call_witness :
    createMapiClient none none none ⟨some "k1".toList, some "n1".toList⟩ ≠
      createMapiClient none none none ⟨some "k2".toList, some "n2".toList⟩ :=
  createMapiClient_reads_env_each_call "k1".toList "n1".toList "k2".toList "n2".toList
    (by decide) (by decide) (by decide) (by decide) (by decide)

/-- C10: an explicit empty-string override is not treated as absent:
nullish coalescing keeps it, it suppresses both the bound-context value and
the fallback value, and it then fails the presence check — inside a bound
extent (whatever it holds) an empty-string credential override fails with
the MissingCredential-class error, likewise with no context; an
empty-string namespace override fails the namespace check. -/
theorem createMapiClient_empty_override_spec :
    (∀ (ctx : RequestContext) (env : Env),
       createMapiClient none (some []) (some ctx) env =
         .error "API key not provided (neither in context nor environment)".toList) ∧
    (∀ env : Env,
       createMapiClient none (some []) none env =
         .error "API key not provided (neither in context nor environment)".toList) ∧
    (∀ (ctx : RequestContext) (env : Env), ctx.apiKey ≠ [] →
       createMapiClient (some []) none (some ctx) env =
         .error "Environment ID not provided (neither in context nor environment)".toList) := by
  refine ⟨fun ctx env => rfl, fun env => rfl, ?_⟩
  intro ctx env hk
  cases ctx with
  | mk k n =>
    match k, hk with
    | _ :: _, _ => rfl

/-- Witness for C10 at the bound context `("x","y")`: the empty-string
credential override fails even though the context holds a valid credential,
and the empty-string namespace override fails the namespace check. -/
theorem createMapiClient_empty_override_spec_witness :
    createMapiClient none (some []) (some ⟨"x".toList, "y".toList⟩)
        ⟨some "k".toList, some "n".toList⟩ =
      .error "API key not provided (neither in context nor environment)".toList ∧
    createMapiClient none (some []) none ⟨some "k".toList, some "n".toList⟩ =
      .error "API key not provided (neither in context nor environment)".toList ∧
    createMapiClient (some []) none (some ⟨"x".toList, "y".toList⟩) ⟨none, none⟩ =
      .error "Environment ID not provided (neither in context nor environment)".toList :=
  ⟨createMapiClient_empty_override_spec.1 ⟨"x".toList, "y".toList⟩
      ⟨some "k".toList, some "n".toList⟩,
   createMapiClient_empty_override_spec.2.1 ⟨some "k".toList, some "n".toList⟩,
   createMapiClient_empty_override_spec.2.2 ⟨"x".toList, "y".toList⟩ ⟨none, none⟩
      (by decide)⟩
